import Mathlib

/-!
Verification of the WeatherLamp forecast composition engine
(starlette_server/endpoint: yranalyzer.py, yrapiclient.py, app_v2.py).

The Python source is shallowly embedded: times are modelled as integer
seconds (a wall-clock instant is `now : ℕ`, seconds since an hour-aligned
epoch); Python float arithmetic on these quantities is exact real
arithmetic on the values involved, modelled with ℕ / ℚ; fallible code
returns `Option` / `Except`.
-/

namespace WeatherLamp

/-- Embedding of `yranalyzer.get_start_and_end`.  The Python code floors
`now` to the top of the hour, computes `minutes_over = (now - start).total_seconds() / 60`,
and when `minutes_over > slot_len` advances the start by
`slot_len * (minutes_over // slot_len)` minutes.  Working in integer
seconds: `minutes_over > slot_len ↔ now % 3600 > slot_len * 60` and
`minutes_over // slot_len = (now % 3600) / (slot_len * 60)` (exact, since
`⌊x/60/k⌋ = ⌊x/(60k)⌋`).  Returns `(start_time, end_time)` in seconds. -/
def get_start_and_end (slot_len slot_count : ℕ) (now : ℕ) : ℕ × ℕ :=
  let hour_start := now - now % 3600
  let over := now % 3600
  let start :=
    if slot_len * 60 < over then
      hour_start + over / (slot_len * 60) * (slot_len * 60)
    else
      hour_start
  (start, start + slot_len * 60 * slot_count)

/-- The row index of the grid returned by `yranalyzer.create_combined_forecast`:
the merged frame is reindexed onto
`pd.date_range(start=starttime, periods=slot_count, freq=f"{slot_minutes}min")`,
i.e. the times `T0, T0 + slot_minutes, …, T0 + (slot_count-1)·slot_minutes`
(`merge.reindex(expected_index)`), after which the `len != slot_count`
fallback branch is unreachable. -/
def combinedGridTimes (slot_minutes slot_count : ℕ) (now : ℕ) : List ℕ :=
  (List.range slot_count).map
    (fun i => (get_start_and_end slot_minutes slot_count now).1 + i * (slot_minutes * 60))

/-- The grid/boundary property of claim C1, as a predicate on the inputs:
the grid has exactly `slot_count` rows, strictly ascending, starting at
`T0 = get_start_and_end(..).start`; `T0 ≤ now ≤ T0 + slot_minutes·60`,
with `now < T0 + slot_minutes·60` strict except exactly when `now` is
one slot past the top of the hour, where `now = T0 + slot_minutes·60`. -/
def C1GridProp (m n now : ℕ) : Prop :=
  combinedGridTimes m n now = (List.range n).map
      (fun i => (get_start_and_end m n now).1 + i * (m * 60)) ∧
  (combinedGridTimes m n now).length = n ∧
  (combinedGridTimes m n now).head? = some (get_start_and_end m n now).1 ∧
  List.Chain' (· < ·) (combinedGridTimes m n now) ∧
  (get_start_and_end m n now).1 ≤ now ∧
  now ≤ (get_start_and_end m n now).1 + m * 60 ∧
  (now % 3600 ≠ m * 60 → now < (get_start_and_end m n now).1 + m * 60) ∧
  (now % 3600 = m * 60 → now = (get_start_and_end m n now).1 + m * 60)

/-! ### Data-status thresholds and computation (app_v2.py) -/

/-- `CACHE_TTL_SECONDS = 2 * 60` (yrapiclient.py). -/
def CACHE_TTL_SECONDS : ℕ := 2 * 60

/-- `STALE_WARNING_THRESHOLD_S = 30 * 60` (app_v2.py). -/
def STALE_WARNING_THRESHOLD_S : ℕ := 30 * 60

/-- `ERROR_THRESHOLD_S = 3 * 60 * 60` (app_v2.py). -/
def ERROR_THRESHOLD_S : ℕ := 3 * 60 * 60

/-- `create_forecast`: `has_data = forecast_result.source != "none"`. -/
def has_data (forecastSource : String) : Bool := forecastSource != "none"

/-- Python `age is not None and age > threshold` as a Boolean on `Option ℚ`. -/
def ageExceeds (threshold : ℕ) (age : Option ℚ) : Bool :=
  match age with
  | some a => decide ((threshold : ℚ) < a)
  | none => false

/-- `data_status` as computed in `create_forecast` (app_v2.py):
`"error"` when `has_data` is false, else `"stale"` when the worst-case
cache age is not `None` and exceeds `STALE_WARNING_THRESHOLD_S`, else
`"fresh"`. -/
def create_forecast_data_status (forecastSource : String) (maxCacheAge : Option ℚ) : String :=
  if !has_data forecastSource then "error"
  else if ageExceeds STALE_WARNING_THRESHOLD_S maxCacheAge then "stale"
  else "fresh"

/-- The `data_status` string `_get_segment_data` actually returns for a
weather segment: the early-return branch yields `"error"` when
`not result.has_data or (max_cache_age is not None and max_cache_age >
ERROR_THRESHOLD_S)`; otherwise `result.data_status` from
`create_forecast` is passed through. -/
def segment_data_status (forecastSource : String) (maxCacheAge : Option ℚ) : String :=
  if !has_data forecastSource || ageExceeds ERROR_THRESHOLD_S maxCacheAge then "error"
  else create_forecast_data_status forecastSource maxCacheAge

/-! ### Classifier (yranalyzer.py: symbolmap, color-key functions) -/

/-- `pat` occurs as a contiguous run inside `l` (substring occurrence on
character lists). -/
def charListHasPat (pat : List Char) : List Char → Bool
  | [] => pat.isEmpty
  | l@(_ :: rest) => pat.isPrefixOf l || charListHasPat pat rest

/-- `re.compile(r"rain|sleet|snow", re.IGNORECASE).findall(str(symbol))`
is non-empty iff one of the three words occurs in `symbol`
case-insensitively (strings handled as character lists). -/
def rain_re_matches (s : String) : Bool :=
  let ls := s.toList.map Char.toLower
  charListHasPat "rain".toList ls || charListHasPat "sleet".toList ls ||
    charListHasPat "snow".toList ls

/-- The fixed `symbolmap` dict of yranalyzer.py, as a partial lookup
(`symbolmap.get`): `none` models a symbol absent from the dict. -/
def symbolmap (s : String) : Option String :=
  match s with
  | "clearsky" | "fair" => some "CLEARSKY"
  | "partlycloudy" => some "PARTLYCLOUDY"
  | "cloudy" | "fog" => some "CLOUDY"
  | "heavyrain" | "heavyrainandthunder" | "heavyrainshowers" | "heavyrainshowersandthunder"
  | "heavysleet" | "heavysleetandthunder" | "heavysleetshowers" | "heavysleetshowersandthunder"
  | "heavysnow" | "heavysnowandthunder" | "heavysnowshowers"
  | "heavysnowshowersandthunder" => some "HEAVYRAIN"
  | "lightrain" | "lightrainandthunder" | "lightrainshowers" | "lightrainshowersandthunder"
  | "lightsleet" | "lightsleetandthunder" | "lightsleetshowers"
  | "lightsnow" | "lightsnowandthunder" | "lightsnowshowers"
  | "lightssleetshowersandthunder" | "lightssnowshowersandthunder" => some "LIGHTRAIN"
  | "rain" | "rainandthunder" | "rainshowers" | "rainshowersandthunder"
  | "sleet" | "sleetandthunder" | "sleetshowers" | "sleetshowersandthunder"
  | "snow" | "snowandthunder" | "snowshowers" | "snowshowersandthunder" => some "RAIN"
  | _ => none

/-- Embedding of `yranalyzer._determine_nowcast_color_key`: the threshold
ladder on the nowcast precipitation rate (mm/h, exact rational arithmetic
for the Python floats 3.0 / 1.5 / 0.5 / 0.0), then the zero-precipitation
symbol handling. -/
def _determine_nowcast_color_key (precipitation : ℚ) (symbol : Option String) :
    Option String :=
  if precipitation > 3 then some "VERYHEAVYRAIN"
  else if precipitation > 3/2 then some "HEAVYRAIN"
  else if precipitation > 1/2 then some "RAIN"
  else if precipitation > 0 then some "LIGHTRAIN"
  else
    match symbol with
    | some s =>
        if precipitation = 0 then
          if rain_re_matches s then some "CLOUDY" else symbolmap s
        else none
    | none => none

/-- Embedding of `yranalyzer._determine_forecast_color_key`: symbol lookup
in `symbolmap`, with the `LIGHTRAIN → LIGHTRAIN_LT50` promotion when
`prob_of_prec` is a number `≤ 50` (the caller passes `None` for a null
cell, so `Option ℚ` models the `isinstance(prob_of_prec, (int, float))`
guard). -/
def _determine_forecast_color_key (symbol : Option String) (prob_of_prec : Option ℚ) :
    Option String :=
  match symbol with
  | none => none
  | some s =>
    match symbolmap s with
    | none => none
    | some colors_key =>
      if colors_key = "LIGHTRAIN" then
        match prob_of_prec with
        | some p => if p ≤ 50 then some "LIGHTRAIN_LT50" else some colors_key
        | none => some colors_key
      else some colors_key

/-! ### YR API data model (shape consumed by yrapiclient.py / yranalyzer.py) -/

/-- `data.instant.details` of a timeseries entry.  Each field is `Option`:
`none` models the JSON key being absent. -/
structure InstantDetails where
  precipitation_rate : Option ℚ
  wind_speed : Option ℚ
  wind_speed_of_gust : Option ℚ
deriving DecidableEq

/-- `summary` object of a `next_1_hours` / `next_6_hours` block. -/
structure NextHoursSummary where
  symbol_code : String
deriving DecidableEq

/-- `next_1_hours.details`: `precipitation_amount` is read with a
mandatory subscript in `_parse_forecast_1h_entry`, so it is typed as
required; `probability_of_precipitation` is read with `.get`. -/
structure Next1HoursDetails where
  precipitation_amount : ℚ
  probability_of_precipitation : Option ℚ
deriving DecidableEq

/-- `next_1_hours` block. -/
structure Next1Hours where
  summary : NextHoursSummary
  details : Next1HoursDetails
deriving DecidableEq

/-- `next_6_hours.details`: `precipitation_amount` is read with
`.get("precipitation_amount", 0.0)` and then compared against `None`, so
both key absence (outer `none`) and a JSON `null` value (inner `none`)
are distinguished. -/
structure Next6HoursDetails where
  precipitation_amount : Option (Option ℚ)
  probability_of_precipitation : Option ℚ
deriving DecidableEq

/-- `next_6_hours` block. -/
structure Next6Hours where
  summary : NextHoursSummary
  details : Next6HoursDetails
deriving DecidableEq

/-- The `data` object of one timeseries entry. -/
structure EntryData where
  instant : InstantDetails
  next_1_hours : Option Next1Hours
  next_6_hours : Option Next6Hours
deriving DecidableEq

/-- One element of `properties.timeseries`; `time` is the parsed ISO
timestamp in seconds. -/
structure TimeseriesEntry where
  time : ℤ
  data : EntryData
deriving DecidableEq

/-! ### Timeseries parser (yranalyzer.py) -/

/-- Embedding of `yranalyzer._extract_symbol_from_code`: with no `_` the
code is returned unchanged; with exactly one `_` the prefix is returned;
with two or more `_` the two-name unpacking `symbol, _ = split("_")`
raises `ValueError`, modelled as `none`. -/
def _extract_symbol_from_code (symbol_code : String) : Option String :=
  match symbol_code.toList.splitOn '_' with
  | [_] => some symbol_code
  | [s, _] => some (String.mk s)
  | _ => none

/-- One row of the internal forecast table (`cast = "fore"`), i.e. one
index position of the DataFrame built by `_parse_yr_timeseries_to_df`.
In the forecast path every parsed entry appends exactly one value per
emitted timestamp to each of the five columns, so the per-key length
check at the end of `_parse_yr_timeseries_to_df` never drops a column
and the dict-of-lists is equivalent to this row-wise form. -/
structure ForecastRow where
  time : ℤ
  prec_fore : ℚ
  prob_of_prec : Option ℚ
  symbol : String
  wind_speed : Option ℚ
  wind_gust : Option ℚ
deriving DecidableEq

/-- Embedding of `yranalyzer._parse_forecast_1h_entry`: `none` models the
`ValueError`/`KeyError` paths (malformed symbol code, missing
`wind_speed`). -/
def _parse_forecast_1h_entry (t : TimeseriesEntry) (d1h : Next1Hours) : Option ForecastRow :=
  match _extract_symbol_from_code d1h.summary.symbol_code, t.data.instant.wind_speed with
  | some symbol, some ws =>
      some { time := t.time,
             prec_fore := d1h.details.precipitation_amount,
             prob_of_prec := d1h.details.probability_of_precipitation,
             symbol := symbol,
             wind_speed := some ws,
             wind_gust := t.data.instant.wind_speed_of_gust }
  | _, _ => none

/-- Embedding of `yranalyzer._parse_forecast_6h_entry`: the 6-hour block
is expanded into six hourly rows starting at the entry time; the
6-hour precipitation amount (defaulting to `0.0` when the key is absent,
and treated as `0.0` when the value is `null`) is divided by 6. -/
def _parse_forecast_6h_entry (t : TimeseriesEntry) (d6h : Next6Hours) :
    Option (List ForecastRow) :=
  let precip_6h : Option ℚ :=
    match d6h.details.precipitation_amount with
    | none => some 0
    | some v => v
  let precip_hourly : ℚ :=
    match precip_6h with
    | some a => a / 6
    | none => 0
  match _extract_symbol_from_code d6h.summary.symbol_code with
  | none => none
  | some symbol =>
      some ((List.range 6).map fun hour_offset =>
        { time := t.time + 3600 * (hour_offset : ℤ),
          prec_fore := precip_hourly,
          prob_of_prec := d6h.details.probability_of_precipitation,
          symbol := symbol,
          wind_speed := t.data.instant.wind_speed,
          wind_gust := t.data.instant.wind_speed_of_gust })

/-- The rows contributed by one entry in the `cast == "fore"` branch of
`_parse_yr_timeseries_to_df`: `next_1_hours` preferred, else
`next_6_hours` expanded, else the entry is skipped. -/
def forecastEntryRows (t : TimeseriesEntry) : Option (List ForecastRow) :=
  match t.data.next_1_hours with
  | some d1h => (_parse_forecast_1h_entry t d1h).map (fun r => [r])
  | none =>
    match t.data.next_6_hours with
    | some d6h => _parse_forecast_6h_entry t d6h
    | none => some []

/-- The full forecast table of `_parse_yr_timeseries_to_df` for
`cast == "fore"`: the concatenation, in input order, of each entry's
rows (`none` when some entry raises). -/
def parseForeRows : List TimeseriesEntry → Option (List ForecastRow)
  | [] => some []
  | t :: rest => do
      let rows ← forecastEntryRows t
      let rest' ← parseForeRows rest
      pure (rows ++ rest')

/-! ### Fetch coordinator (yrapiclient.py) -/

/-- A parsed YR response body: `timeseries = none` models
`properties.timeseries` being absent or not a list (the
`KeyError`/`TypeError` paths of `_is_valid_yr_response`). -/
structure YrBlob where
  timeseries : Option (List TimeseriesEntry)
deriving DecidableEq

/-- Embedding of `yrapiclient._is_valid_yr_response`. -/
def _is_valid_yr_response (d : YrBlob) : Bool :=
  match d.timeseries with
  | some l => decide (0 < l.length)
  | none => false

/-- The on-disk cache file for one `(cast_type, lat, lon)` key at the
moment of the fetch: its age in seconds (from mtime) and its parsed
content (`parsed = none` when the bytes are not valid JSON). -/
structure CacheFile where
  age : ℚ
  parsed : Option YrBlob
deriving DecidableEq

/-- Outcome of the single upstream HTTP GET: a transport-level error
(`httpx.RequestError`), or a status code together with the result of
`json.loads` on the body (`none` = `JSONDecodeError`). -/
inductive ApiOutcome where
  | netError
  | response (status : ℕ) (parsed : Option YrBlob)
deriving DecidableEq

/-- Embedding of the `CacheResult` dataclass. -/
structure CacheResult where
  data : Option YrBlob
  cache_age_seconds : Option ℚ
  source : String
deriving DecidableEq

/-- Embedding of `yrapiclient.check_cache` (non-dev path) as a function
of the cache state: returns `(data_if_fresh_or_none, age_or_none)`.  A
fresh file (age ≤ TTL) is read and returned without shape validation; a
stale file returns `none` data but keeps the recorded age. -/
def check_cache (cache : Option CacheFile) : Option YrBlob × Option ℚ :=
  match cache with
  | none => (none, none)
  | some f =>
    if f.age ≤ (CACHE_TTL_SECONDS : ℚ) then (f.parsed, some f.age)
    else (none, some f.age)

/-- Embedding of `yrapiclient._load_stale_cache`: the file must exist,
parse as JSON and pass `_is_valid_yr_response`. -/
def _load_stale_cache (cache : Option CacheFile) : Option YrBlob :=
  match cache with
  | none => none
  | some f =>
    match f.parsed with
    | some d => if _is_valid_yr_response d then some d else none
    | none => none

/-- Embedding of `yrapiclient._stale_or_none`. -/
def _stale_or_none (cache : Option CacheFile) (age : Option ℚ) : CacheResult :=
  match _load_stale_cache cache with
  | some d => ⟨some d, age, "cache_stale"⟩
  | none => ⟨none, none, "none"⟩

/-- Embedding of `yrapiclient.get_yrdata` (non-dev path) as a pure
function of the cache state and the upstream outcome.  Status handling:
200 and 203 proceed; 422 and every other status fall back to
`_stale_or_none`, as do network errors, JSON parse failures and shape
validation failures.  The cache write on the API success path is a side
effect not modelled here (C5 concerns the failure path). -/
def get_yrdata (cache : Option CacheFile) (api : ApiOutcome) : CacheResult :=
  match check_cache cache with
  | (some d, age) => ⟨some d, age, "cache_fresh"⟩
  | (none, age) =>
    match api with
    | .netError => _stale_or_none cache age
    | .response status parsed =>
      if status = 200 ∨ status = 203 then
        match parsed with
        | none => _stale_or_none cache age
        | some d =>
          if _is_valid_yr_response d then ⟨some d, some 0, "api"⟩
          else _stale_or_none cache age
      else _stale_or_none cache age

/-- The upstream call failed: network error, failure HTTP status
(anything other than 200/203), JSON parse failure, or shape-validation
failure. -/
def apiFailed : ApiOutcome → Bool
  | .netError => true
  | .response status parsed =>
      !(status == 200 || status == 203) ||
        (match parsed with
         | none => true
         | some d => !_is_valid_yr_response d)

/-- The cache would be served fresh: the file exists, its age is within
the TTL and its bytes parse as JSON. -/
def cacheFreshReadable (cache : Option CacheFile) : Bool :=
  match cache with
  | some f => decide (f.age ≤ (CACHE_TTL_SECONDS : ℚ)) && f.parsed.isSome
  | none => false

/-- The recorded cache age (`age` as returned by `check_cache` whenever
the file exists). -/
def cache_age (cache : Option CacheFile) : Option ℚ :=
  cache.map (fun f => f.age)

/-- A concrete stale-but-valid cache content used by the C5 witness:
one timeseries entry, so `_is_valid_yr_response` holds. -/
def sampleBlob : YrBlob :=
  { timeseries := some
      [{ time := 0,
         data := { instant := { precipitation_rate := none,
                                wind_speed := none,
                                wind_speed_of_gust := none },
                   next_1_hours := none,
                   next_6_hours := none } }] }

/-! ### Coordinate validation (yrapiclient.get_locationforecast) -/

/-- `MIN_LAT = -90.0` (yrapiclient.py). -/
def MIN_LAT : ℚ := -90

/-- `MAX_LAT = 90.0` (yrapiclient.py). -/
def MAX_LAT : ℚ := 90

/-- `MIN_LON = -180.0` (yrapiclient.py). -/
def MIN_LON : ℚ := -180

/-- `MAX_LON = 180.0` (yrapiclient.py). -/
def MAX_LON : ℚ := 180

/-- Embedding of `yrapiclient.get_locationforecast`: the strict range
check `MIN_LAT < lat < MAX_LAT and MIN_LON < lon < MAX_LON` guards the
delegation to `get_yrdata`; outside it a `ValueError` is raised
(`Except.error`), before any cache or network access. -/
def get_locationforecast (lat lon : ℚ) (cache : Option CacheFile) (api : ApiOutcome) :
    Except String CacheResult :=
  if MIN_LAT < lat ∧ lat < MAX_LAT ∧ MIN_LON < lon ∧ lon < MAX_LON then
    .ok (get_yrdata cache api)
  else
    .error "Values must be '-90.0 < lat < 90.0 and -180.0 < lon < 180.0'"

/-! ### Colors, hex rendering and LED slots (app_v2.py) -/

/-- An RGB triple (pydantic `RGBColor`; components validated 0..255 at
colormap load, expressed as `Rgb.valid`). -/
structure Rgb where
  red : ℕ
  green : ℕ
  blue : ℕ
deriving DecidableEq

/-- The pydantic bound `Field(ge=0, le=255)` on each component
(`ge 0` is inherent in ℕ). -/
def Rgb.valid (c : Rgb) : Prop := c.red ≤ 255 ∧ c.green ≤ 255 ∧ c.blue ≤ 255

/-- Python `f"{n:02x}"`: lowercase hexadecimal, zero-padded to width 2
(values above 255 render with more digits, unpadded and untruncated). -/
def format02x (n : ℕ) : String :=
  if n < 256 then String.mk [Nat.digitChar (n / 16), Nat.digitChar (n % 16)]
  else String.mk (Nat.toDigits 16 n)

/-- The hex rendering `f"{r:02x}{g:02x}{b:02x}"` used throughout
app_v2.py. -/
def rgbHex (c : Rgb) : String := format02x c.red ++ format02x c.green ++ format02x c.blue

/-- `STALE_INDICATOR_COLOR = [255, 0, 128]` (app_v2.py). -/
def STALE_INDICATOR_COLOR : Rgb := ⟨255, 0, 128⟩

/-- `STALE_INDICATOR_HEX = "ff0080"` (app_v2.py). -/
def STALE_INDICATOR_HEX : String := "ff0080"

/-- `ERROR_PATTERN_COLORS = [[255, 0, 128], [0, 0, 0]]` (app_v2.py). -/
def ERROR_PATTERN_COLORS : List Rgb := [⟨255, 0, 128⟩, ⟨0, 0, 0⟩]

/-- One LED slot dictionary as emitted by app_v2.py
(`_build_error_pattern`, `_create_colormap_preview`, `_get_segment_data`,
dark segments). -/
structure LedSlot where
  time : Option String
  yr_symbol : Option String
  wl_symbol : Option String
  prec_nowcast : Option ℚ
  prec_forecast : Option ℚ
  precipitation : Option ℚ
  prob_of_prec : Option ℚ
  wind_gust : Option ℚ
  rgb : Rgb
  hex : String
deriving DecidableEq

/-- The pydantic `WeatherColorMap`: every loaded colormap has exactly
these eight buckets, in this declaration order (`to_dict` preserves the
field order, so `list(colormap.values())` always has 8 entries). -/
structure WeatherColorMap where
  CLEARSKY : Rgb
  PARTLYCLOUDY : Rgb
  CLOUDY : Rgb
  LIGHTRAIN_LT50 : Rgb
  LIGHTRAIN : Rgb
  RAIN : Rgb
  HEAVYRAIN : Rgb
  VERYHEAVYRAIN : Rgb
deriving DecidableEq

/-- The ordered `(name, rgb)` pairs of `colormap.to_dict()` — the basis
of `list(colormap.keys())` and `list(colormap.values())`. -/
def WeatherColorMap.toPairs (cm : WeatherColorMap) : List (String × Rgb) :=
  [("CLEARSKY", cm.CLEARSKY), ("PARTLYCLOUDY", cm.PARTLYCLOUDY), ("CLOUDY", cm.CLOUDY),
   ("LIGHTRAIN_LT50", cm.LIGHTRAIN_LT50), ("LIGHTRAIN", cm.LIGHTRAIN), ("RAIN", cm.RAIN),
   ("HEAVYRAIN", cm.HEAVYRAIN), ("VERYHEAVYRAIN", cm.VERYHEAVYRAIN)]

/-- Every component of every bucket is in 0..255. -/
def WeatherColorMap.valid (cm : WeatherColorMap) : Prop :=
  ∀ p ∈ cm.toPairs, p.2.valid

/-! ### Segment assembly (app_v2.py) -/

/-- Embedding of `app_v2._build_error_pattern`: alternating hot pink /
off over the whole segment (`idx % len(ERROR_PATTERN_COLORS)`; the index
is always in bounds, so `getD`'s default is never used). -/
def _build_error_pattern (led_count : ℕ) : List LedSlot :=
  (List.range led_count).map fun idx =>
    let color := ERROR_PATTERN_COLORS.getD (idx % ERROR_PATTERN_COLORS.length) ⟨0, 0, 0⟩
    { time := none, yr_symbol := none, wl_symbol := some "error",
      prec_nowcast := none, prec_forecast := none, precipitation := none,
      prob_of_prec := none, wind_gust := none,
      rgb := color, hex := rgbHex color }

/-- The slot `_create_colormap_preview` produces at position `i`:
`color_index = int((i / led_count) * len(colors)) if led_count > 1 else 0`
(exact arithmetic: `⌊i·N/led_count⌋`), clamped into bounds, then the
colormap value and key at that index. -/
def previewSlotAt (cm : WeatherColorMap) (led_count i : ℕ) : LedSlot :=
  let colors := cm.toPairs.map Prod.snd
  let color_index0 := if 1 < led_count then i * colors.length / led_count else 0
  let color_index := if colors.length ≤ color_index0 then colors.length - 1 else color_index0
  let rgb := colors.getD color_index ⟨0, 0, 0⟩
  { time := none, yr_symbol := none,
    wl_symbol := some ("colormap_preview_" ++ (cm.toPairs.map Prod.fst).getD color_index ""),
    prec_nowcast := none, prec_forecast := none, precipitation := none,
    prob_of_prec := none, wind_gust := none,
    rgb := rgb, hex := rgbHex rgb }

/-- Embedding of `app_v2._create_colormap_preview` (with the requested
colormap already resolved; the unknown-name fallback to the first loaded
colormap happens before this point). -/
def _create_colormap_preview (cm : WeatherColorMap) (led_count : ℕ) : List LedSlot :=
  (List.range led_count).map (previewSlotAt cm led_count)

/-- The dark-segment slot of `_process_segments`. -/
def darkSlot : LedSlot :=
  { time := none, yr_symbol := none, wl_symbol := some "dark",
    prec_nowcast := none, prec_forecast := none, precipitation := none,
    prob_of_prec := none, wind_gust := none, rgb := ⟨0, 0, 0⟩, hex := "000000" }

/-- The dark branch of `_process_segments`: `led_count` identical
`darkSlot`s. -/
def darkSegmentTimes (led_count : ℕ) : List LedSlot := List.replicate led_count darkSlot

/-- One row of the segment DataFrame after `add_symbol_and_color`, as
read back by the output loop of `_get_segment_data`.  `color` is always
a `[r, g, b]` list there (either a colormap bucket or the fallback
`colormap.get("UNKNOWN", colormap.get("CLOUDY", [0,0,0]))`), so the
`isinstance` guard's invalid-color branch — which consistently sets
`rgb = [0,0,0]`, `hex = "000000"` — is unreachable in this typed model. -/
structure ProcessedRow where
  rowTime : String
  symbol : Option String
  wl_symbol : Option String
  prec_now : Option ℚ
  prec_fore : Option ℚ
  prob_of_prec : Option ℚ
  wind_gust : Option ℚ
  color : Rgb
deriving DecidableEq

/-- The slot dictionary the `_get_segment_data` loop appends for one
row: `precipitation = prec_now if pd.notnull(prec_now) else prec_fore`,
`hex` rendered from the row's color. -/
def rowToSlot (r : ProcessedRow) : LedSlot :=
  { time := some r.rowTime,
    yr_symbol := r.symbol,
    wl_symbol := r.wl_symbol,
    prec_nowcast := r.prec_now,
    prec_forecast := r.prec_fore,
    precipitation := if r.prec_now.isSome then r.prec_now else r.prec_fore,
    prob_of_prec := r.prob_of_prec,
    wind_gust := r.wind_gust,
    rgb := r.color,
    hex := rgbHex r.color }

/-- The stale-indicator mutation `times[-1]["rgb"/"hex"/"wl_symbol"] = …`
applied to the last slot of the pre-reversal order (no-op on an empty
list, matching the `and times` guard). -/
def applyStaleIndicator : List LedSlot → List LedSlot
  | [] => []
  | [t] => [{ t with rgb := STALE_INDICATOR_COLOR, hex := STALE_INDICATOR_HEX, wl_symbol := some "stale_indicator" }]
  | t :: u :: rest => t :: applyStaleIndicator (u :: rest)

/-- Embedding of `app_v2._get_segment_data` downstream of the fetch: the
fetched/processed rows, the forecast source and the worst-case cache age
determine the slot list and the returned `data_status`. -/
def _get_segment_data (rows : List ProcessedRow) (slot_count : ℕ)
    (forecastSource : String) (maxAge : Option ℚ) : List LedSlot × String :=
  if !has_data forecastSource || ageExceeds ERROR_THRESHOLD_S maxAge then
    (_build_error_pattern slot_count, "error")
  else
    let status := create_forecast_data_status forecastSource maxAge
    let times := rows.map rowToSlot
    (if status = "stale" then applyStaleIndicator times else times, status)

/-- One segment spec of the validated request. -/
structure SegmentSpec where
  index : ℤ
  program : String
  led_count : ℕ
  reversed : Bool
  lat : ℚ
  lon : ℚ
  slot_minutes : ℕ
deriving DecidableEq

/-- The per-segment body of `app_v2._process_segments`, with the weather
fetch result abstracted by its inputs (`rows`, `forecastSource`,
`maxAge`): colormap preview → reversal applied; `dark` → constant slots
(the dark branch applies no reversal); weather → `_get_segment_data`
slots, then reversal. -/
def processOneSegment (cm_preview : Bool) (cm : WeatherColorMap) (seg : SegmentSpec)
    (rows : List ProcessedRow) (forecastSource : String) (maxAge : Option ℚ) :
    List LedSlot :=
  if cm_preview then
    let segment_times := _create_colormap_preview cm seg.led_count
    if seg.reversed then segment_times.reverse else segment_times
  else if seg.program = "dark" then
    darkSegmentTimes seg.led_count
  else
    let segment_times := (_get_segment_data rows seg.led_count forecastSource maxAge).1
    if seg.reversed then segment_times.reverse else segment_times

/-- The `plain` fallback colormap of `load_colormaps` (app_v2.py),
used as a concrete instance by witnesses. -/
def plainColormap : WeatherColorMap :=
  { CLEARSKY := ⟨3, 3, 235⟩, PARTLYCLOUDY := ⟨65, 126, 205⟩, CLOUDY := ⟨180, 200, 200⟩,
    LIGHTRAIN_LT50 := ⟨161, 228, 74⟩, LIGHTRAIN := ⟨240, 240, 42⟩, RAIN := ⟨241, 155, 44⟩,
    HEAVYRAIN := ⟨236, 94, 42⟩, VERYHEAVYRAIN := ⟨234, 57, 248⟩ }

/-! ### Hex/RGB consistency (C10) -/

/-- A slot's `hex` field is the `%02x%02x%02x` rendering of its `rgb`
field. -/
def hexConsistent (s : LedSlot) : Prop := s.hex = rgbHex s.rgb

/-! ## Theorems -/

/-- Core boundary facts about `get_start_and_end` and the reindexed grid,
shared by the C1 theorems. -/
theorem c1GridProp_holds (m n now : ℕ) (hm : 1 ≤ m) (hn : 1 ≤ n) :
    C1GridProp m n now := by
  have hspos : 0 < m * 60 := by omega
  have hle : now % 3600 / (m * 60) * (m * 60) ≤ now % 3600 := Nat.div_mul_le_self _ _
  have hlt : now % 3600 < now % 3600 / (m * 60) * (m * 60) + m * 60 :=
    Nat.lt_div_mul_add hspos
  have hrle : now % 3600 ≤ now := Nat.mod_le _ _
  have hT0 : (get_start_and_end m n now).1 =
      if m * 60 < now % 3600 then
        now - now % 3600 + now % 3600 / (m * 60) * (m * 60)
      else now - now % 3600 := rfl
  refine ⟨rfl, ?_, ?_, ?_, ?_⟩
  · simp [combinedGridTimes]
  · obtain ⟨n', rfl⟩ : ∃ n', n = n' + 1 := ⟨n - 1, by omega⟩
    simp [combinedGridTimes, List.range_succ_eq_map]
  · obtain ⟨n', rfl⟩ : ∃ n', n = n' + 1 := ⟨n - 1, by omega⟩
    rw [combinedGridTimes, List.chain'_map, List.chain'_range_succ]
    intro i _
    have h : i * (m * 60) < (i + 1) * (m * 60) := by
      calc i * (m * 60) < i * (m * 60) + m * 60 := by omega
        _ = (i + 1) * (m * 60) := by ring
    exact Nat.add_lt_add_left h _
  · have hrest : (get_start_and_end m n now).1 ≤ now ∧
        now ≤ (get_start_and_end m n now).1 + m * 60 ∧
        (now % 3600 ≠ m * 60 → now < (get_start_and_end m n now).1 + m * 60) ∧
        (now % 3600 = m * 60 → now = (get_start_and_end m n now).1 + m * 60) := by
      rw [hT0]
      set qs := now % 3600 / (m * 60) * (m * 60) with hqs
      clear hqs
      by_cases hc : m * 60 < now % 3600
      · simp only [if_pos hc]
        omega
      · simp only [if_neg hc]
        omega
    exact ⟨hrest.1, hrest.2.1, hrest.2.2.1, hrest.2.2.2⟩

/-- C1 counterexample: with `slot_minutes = 15` and `now` exactly at
`14:15:00` (51300 seconds past an hour-aligned epoch, i.e. 15 minutes over
the top of the hour), `get_start_and_end` leaves `T0` at the top of the
hour (`14:00:00` = 50400 s), so the claimed strict bound
`now < T0 + slot_minutes` fails: `now = T0 + 15·60` exactly. -/
theorem c1_boundary_counterexample :
    (get_start_and_end 15 4 51300).1 = 50400 ∧
    ¬ (51300 < (get_start_and_end 15 4 51300).1 + 15 * 60) := by decide

/-- C1 (amended): for `slot_minutes ≥ 1`, `slot_count ≥ 1` and any instant
`now`, `create_combined_forecast`'s grid has exactly `slot_count` rows,
strictly ascending in time, the first row's time being the `T0` computed
by `get_start_and_end`; `T0 ≤ now ≤ T0 + slot_minutes` always, and the
strict upper bound `now < T0 + slot_minutes` holds except exactly when
`now` falls one slot past the top of the hour (e.g. 14:15:00 with 15-min
slots), where instead `now = T0 + slot_minutes` because the code advances
`T0` only when `minutes_over > slot_len` (strict). -/
theorem c1_grid_boundary_amended (m n now : ℕ) (hm : 1 ≤ m) (hn : 1 ≤ n) :
    C1GridProp m n now :=
  c1GridProp_holds m n now hm hn

/-- C1 witness: the amended theorem applied at the source docstring's own
example, `slot_len = 15`, `slot_count = 16`, `now = 14:55:52` (53752 s):
the grid starts at `T0 = 14:45:00` (53100 s). -/
theorem c1_grid_boundary_amended_witness :
    C1GridProp 15 16 53752 ∧ (get_start_and_end 15 16 53752).1 = 53100 :=
  ⟨c1_grid_boundary_amended 15 16 53752 (by decide) (by decide), by decide⟩

/-- C2: the per-segment `data_status` is `"error"` iff `has_data` is false
or the worst-case cache age exceeds the 3-hour error threshold; when
`has_data` holds and the age is at most the error threshold, the status is
`"stale"` exactly when the age exceeds the 30-minute stale warning
threshold and `"fresh"` otherwise (also `"fresh"` when no cache age was
recorded at all). -/
theorem c2_data_status_thresholds (src : String) (age : Option ℚ) :
    (segment_data_status src age = "error" ↔
      has_data src = false ∨ ∃ a, age = some a ∧ (ERROR_THRESHOLD_S : ℚ) < a) ∧
    (has_data src = true → age = none → segment_data_status src age = "fresh") ∧
    (∀ a : ℚ, has_data src = true → age = some a → a ≤ (ERROR_THRESHOLD_S : ℚ) →
      ((segment_data_status src age = "stale" ↔ (STALE_WARNING_THRESHOLD_S : ℚ) < a) ∧
       (segment_data_status src age = "fresh" ↔ a ≤ (STALE_WARNING_THRESHOLD_S : ℚ)))) := by
  refine ⟨?_, ?_, ?_⟩
  · rcases age with _ | a
    · by_cases h : has_data src = true <;>
        simp [segment_data_status, create_forecast_data_status, ageExceeds, h]
    · by_cases h : has_data src = true
      · by_cases ha : (ERROR_THRESHOLD_S : ℚ) < a
        · simp [segment_data_status, create_forecast_data_status, ageExceeds, h, ha]
        · simp [segment_data_status, create_forecast_data_status, ageExceeds, h, ha]
          split <;> decide
      · simp only [Bool.not_eq_true] at h
        simp [segment_data_status, h]
  · intro h hnone
    subst hnone
    simp [segment_data_status, create_forecast_data_status, ageExceeds, h]
  · intro a h hsome hle
    subst hsome
    have hnotErr : ¬ (ERROR_THRESHOLD_S : ℚ) < a := not_lt.mpr hle
    by_cases hst : (STALE_WARNING_THRESHOLD_S : ℚ) < a
    · simp [segment_data_status, create_forecast_data_status, ageExceeds, h, hnotErr, hst,
        not_le.mpr hst]
    · simp [segment_data_status, create_forecast_data_status, ageExceeds, h, hnotErr, hst,
        not_lt.mp hst]

/-- C2 witness: a forecast served from the API (`source = "api"`) with a
worst-case cache age of 2000 s (between the 30-min and 3-h thresholds)
reports `data_status = "stale"`. -/
theorem c2_data_status_thresholds_witness :
    segment_data_status "api" (some 2000) = "stale" :=
  ((c2_data_status_thresholds "api" (some 2000)).2.2 2000 (by decide) rfl
    (by norm_num [ERROR_THRESHOLD_S])).1.mpr (by norm_num [STALE_WARNING_THRESHOLD_S])

/-- C3: for a row with nowcast precipitation present, the classifier
applies the strict ladder `> 3.0 → VERYHEAVYRAIN`, `> 1.5 → HEAVYRAIN`,
`> 0.5 → RAIN`, `> 0.0 → LIGHTRAIN` regardless of the symbol; and at
exactly `0.0` with a symbol present it returns `CLOUDY` when the symbol
matches `rain|sleet|snow` case-insensitively, else the `symbolmap`
entry. -/
theorem c3_nowcast_classifier (p : ℚ) (sym : Option String) :
    (3 < p → _determine_nowcast_color_key p sym = some "VERYHEAVYRAIN") ∧
    (3/2 < p → p ≤ 3 → _determine_nowcast_color_key p sym = some "HEAVYRAIN") ∧
    (1/2 < p → p ≤ 3/2 → _determine_nowcast_color_key p sym = some "RAIN") ∧
    (0 < p → p ≤ 1/2 → _determine_nowcast_color_key p sym = some "LIGHTRAIN") ∧
    (∀ s, sym = some s → p = 0 →
      _determine_nowcast_color_key p sym =
        if rain_re_matches s then some "CLOUDY" else symbolmap s) := by
  refine ⟨?_, ?_, ?_, ?_, ?_⟩
  · intro h
    simp only [_determine_nowcast_color_key, gt_iff_lt]
    rw [if_pos h]
  · intro h h'
    simp only [_determine_nowcast_color_key, gt_iff_lt]
    rw [if_neg (not_lt.mpr h'), if_pos h]
  · intro h h'
    have h3 : ¬ (3:ℚ) < p := by linarith
    simp only [_determine_nowcast_color_key, gt_iff_lt]
    rw [if_neg h3, if_neg (not_lt.mpr h'), if_pos h]
  · intro h h'
    have h3 : ¬ (3:ℚ) < p := by linarith
    have h15 : ¬ (3/2:ℚ) < p := by linarith
    simp only [_determine_nowcast_color_key, gt_iff_lt]
    rw [if_neg h3, if_neg h15, if_neg (not_lt.mpr h'), if_pos h]
  · intro s hsym hp
    subst hsym
    subst hp
    norm_num [_determine_nowcast_color_key]

/-- C3 witness: nowcast rate 2 mm/h lands in the `(1.5, 3]` bracket and
classifies as `HEAVYRAIN` irrespective of the `clearsky` symbol. -/
theorem c3_nowcast_classifier_witness :
    _determine_nowcast_color_key 2 (some "clearsky") = some "HEAVYRAIN" :=
  (c3_nowcast_classifier 2 (some "clearsky")).2.1 (by norm_num) (by norm_num)

/-- C4: when the nowcast is absent and the forecast symbol maps to
`LIGHTRAIN`, the classifier returns `LIGHTRAIN_LT50` exactly when a
numeric `prob_of_prec ≤ 50` is present, and `LIGHTRAIN` exactly when it
is absent or `> 50`. -/
theorem c4_lightrain_lt50 (s : String) (prob : Option ℚ)
    (hs : symbolmap s = some "LIGHTRAIN") :
    (_determine_forecast_color_key (some s) prob = some "LIGHTRAIN_LT50" ↔
      ∃ p, prob = some p ∧ p ≤ 50) ∧
    (_determine_forecast_color_key (some s) prob = some "LIGHTRAIN" ↔
      prob = none ∨ ∃ p, prob = some p ∧ 50 < p) := by
  rcases prob with _ | p
  · simp [_determine_forecast_color_key, hs]
  · by_cases hp : p ≤ (50:ℚ)
    · simp [_determine_forecast_color_key, hs, hp, not_lt.mpr hp]
    · simp [_determine_forecast_color_key, hs, hp, not_le.mp hp]

/-- C4 witness: symbol `lightrain` with `prob_of_prec = 40` is promoted to
`LIGHTRAIN_LT50`. -/
theorem c4_lightrain_lt50_witness :
    _determine_forecast_color_key (some "lightrain") (some 40) = some "LIGHTRAIN_LT50" :=
  (c4_lightrain_lt50 "lightrain" (some 40) rfl).1.mpr ⟨40, rfl, by norm_num⟩

/-- C6: a forecast entry with no `next_1_hours` but a `next_6_hours`
block carrying precipitation amount `A` contributes exactly six rows at
the entry time plus 0,1,2,3,4,5 hours, each with `prec_fore = A/6` and
all sharing the entry's `prob_of_prec`, stripped `symbol`, `wind_speed`
and `wind_gust`; within the full parse the entry contributes exactly
these rows, in place. -/
theorem c6_six_hour_expansion
    (t : TimeseriesEntry) (d6h : Next6Hours) (A : ℚ) (sym : String)
    (h1 : t.data.next_1_hours = none)
    (h6 : t.data.next_6_hours = some d6h)
    (hA : d6h.details.precipitation_amount = some (some A))
    (hsym : _extract_symbol_from_code d6h.summary.symbol_code = some sym) :
    forecastEntryRows t = some
      ([0, 1, 2, 3, 4, 5].map fun k : ℤ =>
        { time := t.time + 3600 * k,
          prec_fore := A / 6,
          prob_of_prec := d6h.details.probability_of_precipitation,
          symbol := sym,
          wind_speed := t.data.instant.wind_speed,
          wind_gust := t.data.instant.wind_speed_of_gust }) ∧
    parseForeRows [t] = forecastEntryRows t := by
  constructor
  · show forecastEntryRows t = _
    simp only [forecastEntryRows, h1, h6, _parse_forecast_6h_entry, hA, hsym]
    norm_num [List.range_succ]
  · rcases h : forecastEntryRows t with _ | rows
    · simp [parseForeRows, h]
    · simp [parseForeRows, h]

/-- C6 witness: a concrete entry at time 0 with `next_6_hours` amount 3,
probability 80, symbol code `rain_day`, wind speed 5, no gust. -/
theorem c6_six_hour_expansion_witness :
    forecastEntryRows
      { time := 0,
        data := { instant := { precipitation_rate := none,
                               wind_speed := some 5,
                               wind_speed_of_gust := none },
                  next_1_hours := none,
                  next_6_hours := some
                    { summary := { symbol_code := "rain_day" },
                      details := { precipitation_amount := some (some 3),
                                   probability_of_precipitation := some 80 } } } } =
      some ([0, 1, 2, 3, 4, 5].map fun k : ℤ =>
        { time := 0 + 3600 * k,
          prec_fore := 3 / 6,
          prob_of_prec := some 80,
          symbol := "rain",
          wind_speed := some 5,
          wind_gust := none }) :=
  (c6_six_hour_expansion _ _ 3 "rain" rfl rfl rfl (by decide)).1

/-- When the cache is not fresh-readable, `check_cache` yields no data
but records the file's age. -/
theorem check_cache_not_fresh (cache : Option CacheFile)
    (hnf : cacheFreshReadable cache = false) :
    check_cache cache = (none, cache_age cache) := by
  rcases cache with _ | f
  · rfl
  · by_cases hage : f.age ≤ (CACHE_TTL_SECONDS : ℚ)
    · have hp : f.parsed = none := by
        simp [cacheFreshReadable, hage] at hnf
        exact Option.not_isSome_iff_eq_none.mp (by simp [hnf])
      simp [check_cache, cache_age, hage, hp]
    · simp [check_cache, cache_age, hage]

/-- On a failed upstream call with no fresh cache, `get_yrdata` reduces
to `_stale_or_none` at the recorded age. -/
theorem get_yrdata_on_failure (cache : Option CacheFile) (api : ApiOutcome)
    (hfail : apiFailed api = true)
    (hcheck : check_cache cache = (none, cache_age cache)) :
    get_yrdata cache api = _stale_or_none cache (cache_age cache) := by
  cases api with
  | netError =>
    simp [get_yrdata, hcheck]
  | response status parsed =>
    by_cases hst : status = 200 ∨ status = 203
    · rcases parsed with _ | d
      · simp [get_yrdata, hcheck, hst]
      · have hinv : _is_valid_yr_response d = false := by
          rcases hst with h | h <;> subst h <;>
            simpa [apiFailed] using hfail
        simp [get_yrdata, hcheck, hst, hinv]
    · simp [get_yrdata, hcheck, hst]

/-- C5: whenever the upstream call fails (network error, bad status,
JSON parse failure or shape-validation failure) and the cache is not
fresh, `get_yrdata` returns — without propagating the failure, the
embedding being a total function — the stale cache data with the
recorded age and `source = "cache_stale"` when a cache file exists whose
content parses and has a non-empty `properties.timeseries`; otherwise it
returns `data = none`, `age = none`, `source = "none"`. -/
theorem c5_stale_fallback (cache : Option CacheFile) (api : ApiOutcome)
    (hfail : apiFailed api = true)
    (hnotfresh : cacheFreshReadable cache = false) :
    (∀ f d, cache = some f → f.parsed = some d → _is_valid_yr_response d = true →
        get_yrdata cache api = ⟨some d, some f.age, "cache_stale"⟩) ∧
    ((∀ f d, cache = some f → f.parsed = some d → _is_valid_yr_response d = false) →
        get_yrdata cache api = ⟨none, none, "none"⟩) := by
  have hcheck := check_cache_not_fresh cache hnotfresh
  have hmain := get_yrdata_on_failure cache api hfail hcheck
  constructor
  · intro f d hf hp hv
    subst hf
    rw [hmain]
    simp [_stale_or_none, _load_stale_cache, hp, hv, cache_age]
  · intro hninv
    rw [hmain]
    rcases cache with _ | f
    · simp [_stale_or_none, _load_stale_cache]
    · rcases hp : f.parsed with _ | d
      · simp [_stale_or_none, _load_stale_cache, hp]
      · simp [_stale_or_none, _load_stale_cache, hp, hninv f d rfl hp]

/-- C5 witness: a network error with a 3000-second-old valid cache file
yields that data with `source = "cache_stale"` and the recorded age. -/
theorem c5_stale_fallback_witness :
    get_yrdata (some ⟨3000, some sampleBlob⟩) .netError =
      ⟨some sampleBlob, some 3000, "cache_stale"⟩ :=
  (c5_stale_fallback (some ⟨3000, some sampleBlob⟩) .netError rfl (by decide)).1
    ⟨3000, some sampleBlob⟩ sampleBlob rfl rfl rfl

/-- C9: coordinates strictly inside (−90, 90) × (−180, 180) delegate to
the cache-first fetch and never produce the `ValueError`; any coordinate
outside — the exact boundary values ±90 / ±180 included — yields the
`ValueError`, and in that case the result is independent of the cache
and upstream state (neither is touched). -/
theorem c9_coordinate_validation (lat lon : ℚ) (cache : Option CacheFile)
    (api : ApiOutcome) :
    ((-90 < lat ∧ lat < 90 ∧ -180 < lon ∧ lon < 180) →
      get_locationforecast lat lon cache api = .ok (get_yrdata cache api)) ∧
    (¬(-90 < lat ∧ lat < 90 ∧ -180 < lon ∧ lon < 180) →
      (∃ e, get_locationforecast lat lon cache api = .error e) ∧
      ∀ cache' api', get_locationforecast lat lon cache api =
        get_locationforecast lat lon cache' api') ∧
    (lat = 90 ∨ lat = -90 ∨ lon = 180 ∨ lon = -180 →
      ∃ e, get_locationforecast lat lon cache api = .error e) := by
  refine ⟨?_, ?_, ?_⟩
  · intro h
    simp [get_locationforecast, MIN_LAT, MAX_LAT, MIN_LON, MAX_LON, h.1, h.2.1, h.2.2.1,
      h.2.2.2]
  · intro h
    constructor
    · exact ⟨"Values must be '-90.0 < lat < 90.0 and -180.0 < lon < 180.0'",
        by simp [get_locationforecast, MIN_LAT, MAX_LAT, MIN_LON, MAX_LON, h]⟩
    · intro cache' api'
      simp [get_locationforecast, MIN_LAT, MAX_LAT, MIN_LON, MAX_LON, h]
  · intro h
    have hout : ¬(MIN_LAT < lat ∧ lat < MAX_LAT ∧ MIN_LON < lon ∧ lon < MAX_LON) := by
      rcases h with h | h | h | h <;> subst h <;>
        simp [MIN_LAT, MAX_LAT, MIN_LON, MAX_LON]
    exact ⟨"Values must be '-90.0 < lat < 90.0 and -180.0 < lon < 180.0'",
      by simp [get_locationforecast, hout]⟩

/-- C9 witness: latitude exactly 90 (boundary) raises the `ValueError`;
latitude 60.167, longitude 24.951 (Helsinki) delegates. -/
theorem c9_coordinate_validation_witness :
    (∃ e, get_locationforecast 90 0 none .netError = .error e) ∧
    get_locationforecast (60167/1000) (24951/1000) none .netError =
      .ok (get_yrdata none .netError) :=
  ⟨(c9_coordinate_validation 90 0 none .netError).2.2 (Or.inl rfl),
   (c9_coordinate_validation (60167/1000) (24951/1000) none .netError).1
     (by norm_num)⟩

/-- Coherence of the two status computations: the `data_status` string
returned by `_get_segment_data` is exactly `segment_data_status`. -/
theorem _get_segment_data_status (rows : List ProcessedRow) (n : ℕ) (src : String)
    (age : Option ℚ) :
    (_get_segment_data rows n src age).2 = segment_data_status src age := by
  by_cases h : (!has_data src || ageExceeds ERROR_THRESHOLD_S age) = true
  · simp [_get_segment_data, segment_data_status, h]
  · simp only [_get_segment_data, segment_data_status, if_neg h]

/-- C7: for every segment spec — colormap preview, dark, or weather —
and fixed underlying data, the output with `reversed = 1` is the reverse
of the output with `reversed = 0`.  For preview and weather segments the
code reverses explicitly; the dark branch applies no reversal, but its
slots are all identical, so the list equals its own reverse. -/
theorem c7_reversal_symmetry (cm_preview : Bool) (cm : WeatherColorMap)
    (seg : SegmentSpec) (rows : List ProcessedRow) (src : String) (maxAge : Option ℚ) :
    processOneSegment cm_preview cm { seg with reversed := true } rows src maxAge =
      (processOneSegment cm_preview cm { seg with reversed := false } rows src
        maxAge).reverse := by
  unfold processOneSegment
  by_cases hp : cm_preview
  · simp [hp]
  · by_cases hd : seg.program = "dark"
    · simp [hp, hd, darkSegmentTimes, List.reverse_replicate]
    · simp [hp, hd]

/-- C8: for `led_count ≥ 1` the colormap preview has exactly `led_count`
slots; slot `i` uses color index `⌊i · 8 / led_count⌋`, which is always
`< 8` (the number of buckets of every validated colormap), so the
clamping branch is a no-op and every colormap access is in bounds; the
slot carries that bucket's RGB and
`wl_symbol = colormap_preview_<bucket name>`. -/
theorem c8_colormap_preview_stride (cm : WeatherColorMap) (led_count : ℕ)
    (h : 1 ≤ led_count) :
    (_create_colormap_preview cm led_count).length = led_count ∧
    ∀ i, i < led_count →
      i * 8 / led_count < 8 ∧
      (_create_colormap_preview cm led_count)[i]? = some
        { time := none, yr_symbol := none,
          wl_symbol := some ("colormap_preview_" ++
            (cm.toPairs.map Prod.fst).getD (i * 8 / led_count) ""),
          prec_nowcast := none, prec_forecast := none, precipitation := none,
          prob_of_prec := none, wind_gust := none,
          rgb := (cm.toPairs.map Prod.snd).getD (i * 8 / led_count) ⟨0, 0, 0⟩,
          hex := rgbHex ((cm.toPairs.map Prod.snd).getD (i * 8 / led_count) ⟨0, 0, 0⟩) } := by
  constructor
  · simp [_create_colormap_preview]
  · intro i hi
    have hklt : i * 8 / led_count < 8 := by
      apply Nat.div_lt_of_lt_mul
      exact (Nat.mul_lt_mul_right (by norm_num)).mpr hi
    refine ⟨hklt, ?_⟩
    have hbase : (_create_colormap_preview cm led_count)[i]? =
        some (previewSlotAt cm led_count i) := by
      simp [_create_colormap_preview, List.getElem?_map, List.getElem?_range, hi]
    rw [hbase]
    congr 1
    have hN : (cm.toPairs.map Prod.snd).length = 8 := by
      simp [WeatherColorMap.toPairs]
    by_cases hled : 1 < led_count
    · simp only [previewSlotAt, hN, if_pos hled, if_neg (not_le.mpr hklt)]
    · have h1 : led_count = 1 := by omega
      subst h1
      have hi0 : i = 0 := by omega
      subst hi0
      simp [previewSlotAt, hN]

/-- C8 witness: the theorem applied to the `plain` colormap with 8 LEDs
at position 3 (bucket index 3 = `LIGHTRAIN_LT50`). -/
theorem c8_colormap_preview_stride_witness :
    3 * 8 / 8 < 8 ∧
    (_create_colormap_preview plainColormap 8)[3]? = some
      { time := none, yr_symbol := none,
        wl_symbol := some ("colormap_preview_" ++
          (plainColormap.toPairs.map Prod.fst).getD (3 * 8 / 8) ""),
        prec_nowcast := none, prec_forecast := none, precipitation := none,
        prob_of_prec := none, wind_gust := none,
        rgb := (plainColormap.toPairs.map Prod.snd).getD (3 * 8 / 8) ⟨0, 0, 0⟩,
        hex := rgbHex ((plainColormap.toPairs.map Prod.snd).getD (3 * 8 / 8) ⟨0, 0, 0⟩) } :=
  (c8_colormap_preview_stride plainColormap 8 (by norm_num)).2 3 (by norm_num)

/-- Every slot of the error pattern is hex-consistent. -/
theorem errorPattern_hexConsistent (n : ℕ) :
    ∀ s ∈ _build_error_pattern n, hexConsistent s := by
  intro s hs
  simp only [_build_error_pattern, List.mem_map, List.mem_range] at hs
  obtain ⟨i, _, rfl⟩ := hs
  rfl

/-- Every weather row slot is hex-consistent. -/
theorem rowSlots_hexConsistent (rows : List ProcessedRow) :
    ∀ s ∈ rows.map rowToSlot, hexConsistent s := by
  intro s hs
  simp only [List.mem_map] at hs
  obtain ⟨r, _, rfl⟩ := hs
  rfl

/-- The stale-indicator mutation preserves hex-consistency: its constant
`hex` string `"ff0080"` is the rendering of its constant color
`[255, 0, 128]`. -/
theorem applyStaleIndicator_hexConsistent (l : List LedSlot)
    (h : ∀ s ∈ l, hexConsistent s) :
    ∀ s ∈ applyStaleIndicator l, hexConsistent s := by
  induction l with
  | nil => simp [applyStaleIndicator]
  | cons t rest ih =>
    cases rest with
    | nil =>
      intro s hs
      simp only [applyStaleIndicator, List.mem_singleton] at hs
      subst hs
      show STALE_INDICATOR_HEX = rgbHex STALE_INDICATOR_COLOR
      decide
    | cons u rest' =>
      intro s hs
      simp only [applyStaleIndicator, List.mem_cons] at hs
      rcases hs with rfl | hs'
      · exact h s (by simp)
      · exact ih (fun x hx => h x (List.mem_cons_of_mem _ hx)) s hs'

/-- C10: in every LED slot emitted by any path — dark segments, the
colormap preview, the error pattern, weather slots (including the
mutated stale-indicator slot) — the `hex` field is the `%02x`-per-
component lowercase rendering of the `rgb` field; and for every
validated RGB triple (components ≤ 255) that rendering is exactly six
characters. -/
theorem c10_hex_matches_rgb (led_count slot_count : ℕ) (cm : WeatherColorMap)
    (rows : List ProcessedRow) (src : String) (maxAge : Option ℚ) :
    (∀ s ∈ darkSegmentTimes led_count, hexConsistent s) ∧
    (∀ s ∈ _create_colormap_preview cm led_count, hexConsistent s) ∧
    (∀ s ∈ _build_error_pattern led_count, hexConsistent s) ∧
    (∀ s ∈ (_get_segment_data rows slot_count src maxAge).1, hexConsistent s) ∧
    (∀ c : Rgb, c.valid → (rgbHex c).length = 6) := by
  refine ⟨?_, ?_, ?_, ?_, ?_⟩
  · intro s hs
    have hd := List.eq_of_mem_replicate hs
    subst hd
    show darkSlot.hex = rgbHex darkSlot.rgb
    decide
  · intro s hs
    simp only [_create_colormap_preview, List.mem_map, List.mem_range] at hs
    obtain ⟨i, _, rfl⟩ := hs
    rfl
  · exact errorPattern_hexConsistent led_count
  · intro s hs
    by_cases herr : (!has_data src || ageExceeds ERROR_THRESHOLD_S maxAge) = true
    · simp only [_get_segment_data, if_pos herr] at hs
      exact errorPattern_hexConsistent slot_count s hs
    · simp only [_get_segment_data, if_neg herr] at hs
      by_cases hstale : create_forecast_data_status src maxAge = "stale"
      · rw [if_pos hstale] at hs
        exact applyStaleIndicator_hexConsistent _ (rowSlots_hexConsistent rows) s hs
      · rw [if_neg hstale] at hs
        exact rowSlots_hexConsistent rows s hs
  · intro c hc
    obtain ⟨hr, hg, hb⟩ := hc
    have f2 : ∀ n : ℕ, n ≤ 255 → (format02x n).length = 2 := by
      intro n hn
      rw [format02x, if_pos (by omega)]
      rfl
    simp [rgbHex, String.length_append, f2 _ hr, f2 _ hg, f2 _ hb]

/-- C10 witness: the dark slot's `"000000"` matches `[0,0,0]`, a weather
slot built from a processed row matches its color, and the hot-pink
stale/error color renders as the six-character `"ff0080"`. -/
theorem c10_hex_matches_rgb_witness :
    hexConsistent darkSlot ∧ (rgbHex ⟨255, 0, 128⟩).length = 6 :=
  ⟨(c10_hex_matches_rgb 1 1 plainColormap [] "api" none).1 darkSlot (by decide),
   (c10_hex_matches_rgb 1 1 plainColormap [] "api" none).2.2.2.2 ⟨255, 0, 128⟩
     ⟨by norm_num, by norm_num, by norm_num⟩⟩

end WeatherLamp

